import Mathlib

/-!
# Verification of the task-app front-end session/view controller

Shallow embedding of `src/frontend/app.js`: the single-page task-manager
client that owns a bearer token (mirrored in browser local storage), two
mutually exclusive panels ("auth" and "tasks"), and four network-backed
operations (Register, Login, LoadTasks, AddTask) plus a synchronous Logout.

Network responses are passed to each operation as an explicit environment
value (`Fetch`), since the backend is outside the repository.  DOM effects
are modelled as fields of an explicit `AppState`; the list of HTTP requests
an operation issues is returned alongside the post-state.
-/

namespace TaskApp

/-- A JavaScript value as far as the `token` variable is concerned:
`undef` models the falsy non-string values that actually reach it
(`undefined` from a missing JSON field, `null` from `showAuth` /
`localStorage.getItem` on a missing key); `str` is a string value. -/
inductive JSVal where
  | undef
  | str (s : String)
deriving DecidableEq, Repr

/-- JavaScript truthiness of a token value: `undefined`/`null` are falsy,
a string is truthy exactly when non-empty (`if (!token)`). -/
def truthy : JSVal → Bool
  | .undef => false
  | .str s => decide (s ≠ "")

/-- String coercion as performed by `localStorage.setItem('token', token)`
and by the template literal `Bearer ${token}`: `undefined` becomes the
literal string "undefined". -/
def jsToString : JSVal → String
  | .undef => "undefined"
  | .str s => s

/-- The two mutually exclusive UI panels. -/
inductive View where
  | auth
  | tasks
deriving DecidableEq, Repr

/-- A task as received from the Tasks service (`{title, completed}`). -/
structure Task where
  title : String
  completed : Bool
deriving DecidableEq, Repr

/-- Body of a `/auth/login` response: `malformed` models a body on which
`response.json()` throws; `obj atok` a JSON object whose `access_token`
field is `atok` (`none` = field absent, so `data.access_token` is
`undefined`). -/
inductive LoginBody where
  | malformed
  | obj (accessToken : Option String)
deriving DecidableEq, Repr

/-- Body of a `/auth/register` response: `malformed` throws in
`response.json()`; `obj d` is a JSON object whose `detail` field is `d`
(`none` = absent, displayed as "undefined"). -/
inductive RegisterBody where
  | malformed
  | obj (detail : Option String)
deriving DecidableEq, Repr

/-- Body of a `GET /api/tasks` response: `malformed` throws in
`response.json()`; `nonArray` is valid JSON that is not an array (so
`tasks.forEach` throws, after the list was already cleared); `arr` is a
JSON array of tasks. -/
inductive TasksBody where
  | malformed
  | nonArray
  | arr (tasks : List Task)
deriving DecidableEq, Repr

/-- Outcome of one `fetch`: either the fetch promise rejects (network
failure) or a response with an HTTP status and a body of type `β` arrives. -/
inductive Fetch (β : Type) where
  | netError
  | resp (status : Nat) (body : β)
deriving DecidableEq, Repr

/-- The HTTP requests the controller can issue, with the data each carries. -/
inductive Request where
  | registerReq (username password : String)
  | loginReq (username password : String)
  | loadReq (bearer : String)
  | addReq (bearer : String) (title : String)
deriving DecidableEq, Repr

/-- Observable client state: the in-memory `token` variable, the
`localStorage` entry keyed "token" (`none` = absent), which panel is
visible, the `auth-msg` text, the three input fields, the rendered
`tasks-list` items (each `li`'s text), and the `console.error` log. -/
structure AppState where
  token : JSVal
  storage : Option String
  view : View
  authMsg : String
  titleInput : String
  usernameInput : String
  passwordInput : String
  renderedList : List String
  log : List String
deriving DecidableEq, Repr

/-- `showAuth()`: reveal the auth panel, hide the tasks panel, null the
in-memory token and remove the persisted one.  The rendered list and the
message area are left untouched. -/
def showAuth (s : AppState) : AppState :=
  { s with token := JSVal.undef, storage := none, view := View.auth }

/-- Text of one rendered `li`: the task's title, suffixed with the
completion marker exactly when `completed` is true. -/
def renderTask (t : Task) : String :=
  t.title ++ (if t.completed then " (Terminée)" else "")

/-- `loadTasks()`: no-op without a truthy token; otherwise GET the task
list with the bearer header.  A 401 status triggers `showAuth()` before the
body is parsed.  Otherwise the body is parsed: a parse failure is caught
and logged with the list untouched; a non-array value first clears the list
(`tasksList.innerHTML = ''`) and then throws in `forEach`, caught and
logged; an array fully replaces the list with its rendering. -/
def loadTasks (env : Fetch TasksBody) (s : AppState) : AppState × List Request :=
  if truthy s.token = false then (s, [])
  else
    match env with
    | .netError =>
        ({ s with log := s.log ++ ["Erreur chargement tâches:"] },
         [Request.loadReq (jsToString s.token)])
    | .resp st body =>
        if st = 401 then (showAuth s, [Request.loadReq (jsToString s.token)])
        else
          match body with
          | .malformed =>
              ({ s with log := s.log ++ ["Erreur chargement tâches:"] },
               [Request.loadReq (jsToString s.token)])
          | .nonArray =>
              ({ s with renderedList := [],
                        log := s.log ++ ["Erreur chargement tâches:"] },
               [Request.loadReq (jsToString s.token)])
          | .arr ts =>
              ({ s with renderedList := ts.map renderTask },
               [Request.loadReq (jsToString s.token)])

/-- `showTasks()`: reveal the tasks panel, hide the auth panel, and invoke
`loadTasks()` (whose response is the `tasksEnv` environment). -/
def showTasks (tasksEnv : Fetch TasksBody) (s : AppState) : AppState × List Request :=
  loadTasks tasksEnv { s with view := View.tasks }

/-- `registerBtn.onclick`: POST the credentials as JSON.  Status 201 shows
the success message without parsing the body; any other status parses the
body and shows its `detail` field; a rejected fetch or a throwing
`response.json()` lands in the catch and shows the network-error message.
No token, storage, or view change on any path. -/
def register (env : Fetch RegisterBody) (s : AppState) : AppState × List Request :=
  let req : Request := Request.registerReq s.usernameInput s.passwordInput
  match env with
  | .netError => ({ s with authMsg := "Erreur réseau." }, [req])
  | .resp st body =>
      if st = 201 then
        ({ s with authMsg := "Inscription réussie ! Connectez-vous." }, [req])
      else
        match body with
        | .malformed => ({ s with authMsg := "Erreur réseau." }, [req])
        | .obj d => ({ s with authMsg := "Erreur: " ++ d.getD "undefined" }, [req])

/-- `loginBtn.onclick`: clear the message area, POST the credentials as
form data.  On `response.ok` (2xx) parse the body, assign
`token = data.access_token`, persist `String(token)`, and call
`showTasks()` (which runs `loadTasks` against `tasksEnv`).  On non-2xx show
the failure message; a rejected fetch or throwing `response.json()` shows
the network-error message. -/
def login (env : Fetch LoginBody) (tasksEnv : Fetch TasksBody) (s : AppState) :
    AppState × List Request :=
  let s0 := { s with authMsg := "" }
  let req : Request := Request.loginReq s.usernameInput s.passwordInput
  match env with
  | .netError => ({ s0 with authMsg := "Erreur réseau." }, [req])
  | .resp st body =>
      if 200 ≤ st ∧ st < 300 then
        match body with
        | .malformed => ({ s0 with authMsg := "Erreur réseau." }, [req])
        | .obj atok =>
            let tv : JSVal := match atok with
              | none => JSVal.undef
              | some t => JSVal.str t
            let r := showTasks tasksEnv
              { s0 with token := tv, storage := some (jsToString tv) }
            (r.1, req :: r.2)
      else ({ s0 with authMsg := "Échec de la connexion." }, [req])

/-- `logoutBtn.onclick = () => showAuth()`: synchronous, no fetch. -/
def logout (s : AppState) : AppState × List Request :=
  (showAuth s, [])

/-- `addTaskBtn.onclick`: no-op without a truthy token or with an empty
(`!title`, untrimmed) title.  Otherwise POST `{title}` with the bearer
header.  On 201 clear the title input and re-invoke `loadTasks()`; on any
other status or a rejected fetch, log to the console only. -/
def addTask (env : Fetch Unit) (tasksEnv : Fetch TasksBody) (s : AppState) :
    AppState × List Request :=
  if truthy s.token = false then (s, [])
  else if s.titleInput = "" then (s, [])
  else
    let req : Request := Request.addReq (jsToString s.token) s.titleInput
    match env with
    | .netError =>
        ({ s with log := s.log ++ ["Erreur réseau ajout tâche:"] }, [req])
    | .resp st _ =>
        if st = 201 then
          let r := loadTasks tasksEnv { s with titleInput := "" }
          (r.1, req :: r.2)
        else ({ s with log := s.log ++ ["Erreur ajout tâche"] }, [req])

/-- The in-memory token read at page load:
`token = localStorage.getItem('token')` (`null` when absent). -/
def tokenOf : Option String → JSVal
  | none => JSVal.undef
  | some t => JSVal.str t

/-- The page's state right after `let token = localStorage.getItem('token')`
but before the trailing initialisation block runs: empty inputs, empty
message, empty list, empty console.  The `view` field is immediately
overwritten by the initialisation (`showTasks()` or `showAuth()`), so its
value here is never observable. -/
def freshState (storage : Option String) : AppState :=
  { token := tokenOf storage, storage := storage, view := View.auth,
    authMsg := "", titleInput := "", usernameInput := "", passwordInput := "",
    renderedList := [], log := [] }

/-- The synchronous part of initialisation: `if (token) showTasks() else
showAuth()` with the asynchronous `loadTasks` fetch still in flight.  This
is the state in which the initial view is observed. -/
def initSync (storage : Option String) : AppState :=
  let s0 := freshState storage
  if truthy s0.token then { s0 with view := View.tasks } else showAuth s0

/-- Full initialisation including the completion of the `loadTasks` call
triggered by `showTasks()` when a persisted token exists. -/
def initApp (storage : Option String) (tasksEnv : Fetch TasksBody) :
    AppState × List Request :=
  let s0 := freshState storage
  if truthy s0.token then showTasks tasksEnv s0 else (showAuth s0, [])

/-- One completed user-triggered operation together with its network
environment(s). -/
inductive Op where
  | registerOp (env : Fetch RegisterBody)
  | loginOp (env : Fetch LoginBody) (tasksEnv : Fetch TasksBody)
  | logoutOp
  | loadOp (env : Fetch TasksBody)
  | addOp (env : Fetch Unit) (tasksEnv : Fetch TasksBody)

/-- Run one completed operation from a state. -/
def step : Op → AppState → AppState × List Request
  | .registerOp e, s => register e s
  | .loginOp e te, s => login e te s
  | .logoutOp, s => logout s
  | .loadOp e, s => loadTasks e s
  | .addOp e te, s => addTask e te s

/-- The session/view invariant of the spec: the tasks panel is visible iff
the token is present (truthy), and token absence forces the auth panel and
an empty storage slot. -/
def inv (s : AppState) : Prop :=
  (s.view = View.tasks ↔ truthy s.token = true) ∧
  (truthy s.token = false → s.view = View.auth ∧ s.storage = none)

instance (s : AppState) : Decidable (inv s) := by
  unfold inv; infer_instance

/-- A login environment is contract-conforming when any 2xx response body
parses and carries a non-empty `access_token` string. -/
def loginBodyOk (st : Nat) : LoginBody → Bool
  | .malformed => decide (¬(200 ≤ st ∧ st < 300))
  | .obj atok =>
      if 200 ≤ st ∧ st < 300 then
        match atok with
        | none => false
        | some t => decide (t ≠ "")
      else true

/-- An operation environment is contract-conforming: only Login's 2xx body
is constrained. -/
def opOk : Op → Bool
  | .loginOp (.resp st b) _ => loginBodyOk st b
  | .loginOp .netError _ => true
  | _ => true

/-- The invariant only reads `token`, `view` and `storage`, so it transfers
along any state change that keeps those three fields. -/
theorem inv_of_fields {s s' : AppState} (h : inv s) (ht : s'.token = s.token)
    (hv : s'.view = s.view) (hs : s'.storage = s.storage) : inv s' := by
  unfold inv at h ⊢
  rw [ht, hv, hs]
  exact h

/-- The state produced by `showAuth` always satisfies the invariant. -/
theorem inv_showAuth (s : AppState) : inv (showAuth s) := by
  unfold inv showAuth truthy
  simp

/-- `loadTasks` preserves the invariant from any state. -/
theorem inv_loadTasks (env : Fetch TasksBody) (s : AppState) (h : inv s) :
    inv (loadTasks env s).1 := by
  unfold loadTasks
  by_cases ht : truthy s.token = false
  · simp [ht, h]
  · simp [ht]
    match env with
    | .netError =>
        exact inv_of_fields h rfl rfl rfl
    | .resp st body =>
        by_cases h401 : st = 401
        · simp [h401, inv_showAuth]
        · simp [h401]
          match body with
          | .malformed => exact inv_of_fields h rfl rfl rfl
          | .nonArray => exact inv_of_fields h rfl rfl rfl
          | .arr ts => exact inv_of_fields h rfl rfl rfl

/-- A state whose token is a non-empty string, whose view is the tasks
panel, satisfies the invariant. -/
theorem inv_of_goodToken {s : AppState} (t : String) (hne : t ≠ "")
    (ht : s.token = JSVal.str t) (hv : s.view = View.tasks) : inv s := by
  unfold inv truthy
  rw [ht, hv]
  simp [hne]

/-- `showTasks` from a state with a truthy token yields an invariant state. -/
theorem inv_showTasks (env : Fetch TasksBody) (s : AppState)
    (ht : truthy s.token = true) : inv (showTasks env s).1 := by
  unfold showTasks
  apply inv_loadTasks
  unfold inv
  simp [ht]

/-- `register` never touches the token, the view, or the storage. -/
theorem register_fields (env : Fetch RegisterBody) (s : AppState) :
    (register env s).1.token = s.token ∧ (register env s).1.view = s.view ∧
    (register env s).1.storage = s.storage := by
  unfold register
  cases env with
  | netError => exact ⟨rfl, rfl, rfl⟩
  | resp st body =>
      by_cases h201 : st = 201
      · simp [h201]
      · simp only [h201, if_false]
        cases body with
        | malformed => exact ⟨rfl, rfl, rfl⟩
        | obj d => exact ⟨rfl, rfl, rfl⟩

/-- Claim C1, amended part: the session/view invariant holds after
initialisation from any persisted storage and any load response, and is
preserved by every completed operation whose network environment is
contract-conforming (any 2xx login body carries a non-empty
`access_token`). -/
theorem c1_invariant_preserved :
    (∀ st env, inv (initApp st env).1) ∧
    (∀ (s : AppState) (op : Op), inv s → opOk op = true → inv (step op s).1) := by
  constructor
  · intro st env
    unfold initApp
    by_cases ht : truthy (freshState st).token = true
    · simp only [ht, if_true]
      exact inv_showTasks env _ ht
    · simp only [ht, if_false]
      exact inv_showAuth _
  · intro s op h hop
    cases op with
    | registerOp e =>
        exact inv_of_fields h (register_fields e s).1 (register_fields e s).2.1
          (register_fields e s).2.2
    | logoutOp =>
        exact inv_showAuth s
    | loadOp e =>
        exact inv_loadTasks e s h
    | loginOp e te =>
        show inv (login e te s).1
        unfold login
        cases e with
        | netError => exact inv_of_fields h rfl rfl rfl
        | resp st body =>
            by_cases hok : 200 ≤ st ∧ st < 300
            · simp only [hok, if_true]
              cases body with
              | malformed =>
                  exfalso
                  simp [opOk, loginBodyOk, hok] at hop
              | obj atok =>
                  cases atok with
                  | none =>
                      exfalso
                      simp [opOk, loginBodyOk, hok] at hop
                  | some t =>
                      have hne : t ≠ "" := by
                        simp [opOk, loginBodyOk, hok] at hop
                        exact hop
                      apply inv_showTasks
                      simp [truthy, hne]
            · simp only [hok, if_false]
              exact inv_of_fields h rfl rfl rfl
    | addOp e te =>
        show inv (addTask e te s).1
        unfold addTask
        by_cases ht : truthy s.token = false
        · simp only [ht, if_true]
          exact h
        · simp only [ht, if_false]
          by_cases hti : s.titleInput = ""
          · simp only [hti, if_true]
            exact h
          · simp only [hti, if_false]
            cases e with
            | netError => exact inv_of_fields h rfl rfl rfl
            | resp st u =>
                by_cases h201 : st = 201
                · simp only [h201, if_true]
                  exact inv_loadTasks te _ (inv_of_fields h rfl rfl rfl)
                · simp only [h201, if_false]
                  exact inv_of_fields h rfl rfl rfl

/-- Claim C1, counterexample: from the freshly initialised logged-out state
(which satisfies the invariant), a completed Login whose 2xx response body
lacks `access_token` leaves the tasks panel visible with no truthy token in
memory and the literal string "undefined" persisted — the invariant does
not survive every completed operation. -/
theorem c1_counterexample :
    inv (initApp none Fetch.netError).1 ∧
    (step (Op.loginOp (Fetch.resp 200 (LoginBody.obj none)) Fetch.netError)
        (initApp none Fetch.netError).1).1.view = View.tasks ∧
    truthy (step (Op.loginOp (Fetch.resp 200 (LoginBody.obj none)) Fetch.netError)
        (initApp none Fetch.netError).1).1.token = false ∧
    (step (Op.loginOp (Fetch.resp 200 (LoginBody.obj none)) Fetch.netError)
        (initApp none Fetch.netError).1).1.storage = some "undefined" := by
  decide

/-- Claim C1, witness: the preservation theorem applied to a concrete
conforming login on the freshly initialised state. -/
theorem c1_invariant_witness :
    inv (step (Op.loginOp (Fetch.resp 200 (LoginBody.obj (some "tok1"))) Fetch.netError)
        (initApp none Fetch.netError).1).1 :=
  c1_invariant_preserved.2 _ _ (c1_invariant_preserved.1 none Fetch.netError) (by decide)

/-- Claim C7: from every prior state, Logout nulls the in-memory token,
removes the persisted token, switches to the auth panel, changes nothing
else, and issues no network request. -/
theorem c7_logout_clears (s : AppState) :
    logout s = ({ s with token := JSVal.undef, storage := none, view := View.auth }, []) :=
  rfl

/-- Claim C8: the initial (synchronous) view is the tasks panel exactly
when storage holds a non-empty token, and the auth panel otherwise; and
`loadTasks` from any state without a truthy token changes nothing and
issues no request. -/
theorem c8_initial_view :
    (∀ st : Option String, (initSync st).view = View.tasks ↔ ∃ t, st = some t ∧ t ≠ "") ∧
    (∀ st : Option String, (initSync st).view = View.tasks ∨ (initSync st).view = View.auth) ∧
    (∀ (s : AppState) (env : Fetch TasksBody), truthy s.token = false →
        loadTasks env s = (s, [])) := by
  refine ⟨?_, ?_, ?_⟩
  · intro st
    cases st with
    | none => simp [initSync, freshState, tokenOf, truthy, showAuth]
    | some t =>
        by_cases hne : t = ""
        · subst hne
          simp [initSync, freshState, tokenOf, truthy, showAuth]
        · simp [initSync, freshState, tokenOf, truthy, hne]
  · intro st
    cases hv : (initSync st).view
    · exact Or.inr rfl
    · exact Or.inl rfl
  · intro s env h
    unfold loadTasks
    simp [h]

/-- Claim C8, witness: a stored non-empty token yields the tasks panel, and
the fresh token-less state makes `loadTasks` a no-op. -/
theorem c8_initial_view_witness :
    (initSync (some "tok1")).view = View.tasks ∧
    loadTasks Fetch.netError (freshState none) = (freshState none, []) :=
  ⟨(c8_initial_view.1 (some "tok1")).mpr ⟨"tok1", rfl, by decide⟩,
   c8_initial_view.2.2 (freshState none) Fetch.netError (by decide)⟩

/-- A concrete logged-in state used to instantiate theorems: token "tok1"
present in memory and storage, tasks panel visible, one rendered item, a
pending title in the input field. -/
def sampleState : AppState :=
  { token := JSVal.str "tok1", storage := some "tok1", view := View.tasks,
    authMsg := "", titleInput := "Walk dog", usernameInput := "alice",
    passwordInput := "x", renderedList := ["Buy milk"], log := [] }

/-- Claim C2, counterexample: with a token present and the title input
holding a single space (whitespace-only, empty after trimming), AddTask
does issue a POST, and with the untrimmed title — the code tests
`!title` without trimming. -/
theorem c2_counterexample :
    (addTask Fetch.netError Fetch.netError
        { sampleState with titleInput := " " }).2 = [Request.addReq "tok1" " "] := by
  decide

/-- Claim C2, amended: AddTask with an exactly-empty title is a complete
no-op (no request, no state change); any non-empty title — whitespace-only
included — is submitted untrimmed as the body of the POST. -/
theorem c2_empty_title_noop :
    (∀ (s : AppState) (env : Fetch Unit) (tenv : Fetch TasksBody),
        s.titleInput = "" → addTask env tenv s = (s, [])) ∧
    (∀ (s : AppState) (env : Fetch Unit) (tenv : Fetch TasksBody),
        truthy s.token = true → s.titleInput ≠ "" →
        (addTask env tenv s).2.head? =
          some (Request.addReq (jsToString s.token) s.titleInput)) := by
  constructor
  · intro s env tenv h
    unfold addTask
    by_cases ht : truthy s.token = false
    · simp [ht]
    · simp [ht, h]
  · intro s env tenv ht hti
    unfold addTask
    simp only [ht, hti, if_false]
    cases env with
    | netError => rfl
    | resp st u =>
        by_cases h201 : st = 201
        · simp [h201]
        · simp [h201]

/-- Claim C2, witness: the empty-title no-op and the untrimmed submission,
both at the concrete sample state. -/
theorem c2_empty_title_witness :
    addTask Fetch.netError Fetch.netError { sampleState with titleInput := "" } =
      ({ sampleState with titleInput := "" }, []) ∧
    (addTask Fetch.netError Fetch.netError sampleState).2.head? =
      some (Request.addReq "tok1" "Walk dog") :=
  ⟨c2_empty_title_noop.1 _ Fetch.netError Fetch.netError rfl,
   c2_empty_title_noop.2 sampleState Fetch.netError Fetch.netError (by decide) (by decide)⟩

/-- Claim C3, counterexample: a non-401 response whose body is valid JSON
but not an array does NOT leave the rendered list unchanged — the list is
cleared (`tasksList.innerHTML = ''`) before `tasks.forEach` throws. -/
theorem c3_counterexample :
    sampleState.renderedList = ["Buy milk"] ∧
    (loadTasks (Fetch.resp 200 TasksBody.nonArray) sampleState).1.renderedList = [] := by
  decide

/-- Claim C3, amended: errors thrown before rendering begins — network
failure or a body on which JSON parsing throws — are logged with the
previously rendered list left unchanged; a valid-JSON non-array body
instead clears the list and then throws, leaving the list empty. -/
theorem c3_error_paths :
    (∀ s : AppState, truthy s.token = true →
        (loadTasks Fetch.netError s).1 =
          { s with log := s.log ++ ["Erreur chargement tâches:"] }) ∧
    (∀ (s : AppState) (st : Nat), truthy s.token = true → st ≠ 401 →
        (loadTasks (Fetch.resp st TasksBody.malformed) s).1 =
          { s with log := s.log ++ ["Erreur chargement tâches:"] }) ∧
    (∀ (s : AppState) (st : Nat), truthy s.token = true → st ≠ 401 →
        (loadTasks (Fetch.resp st TasksBody.nonArray) s).1 =
          { s with renderedList := [],
                   log := s.log ++ ["Erreur chargement tâches:"] }) := by
  refine ⟨?_, ?_, ?_⟩
  · intro s ht
    unfold loadTasks
    simp [ht]
  · intro s st ht h401
    unfold loadTasks
    simp [ht, h401]
  · intro s st ht h401
    unfold loadTasks
    simp [ht, h401]

/-- Claim C3, witness: the network-failure and non-array branches at the
concrete sample state. -/
theorem c3_error_paths_witness :
    (loadTasks Fetch.netError sampleState).1 =
      { sampleState with log := sampleState.log ++ ["Erreur chargement tâches:"] } ∧
    (loadTasks (Fetch.resp 500 TasksBody.nonArray) sampleState).1 =
      { sampleState with renderedList := [],
                         log := sampleState.log ++ ["Erreur chargement tâches:"] } :=
  ⟨c3_error_paths.1 sampleState (by decide),
   c3_error_paths.2.2 sampleState 500 (by decide) (by decide)⟩

/-- Claim C4: with a token present, a 401 response to LoadTasks (whatever
the body) produces exactly the post-state of Logout, and the rendered list
is not modified. -/
theorem c4_load401_is_logout (s : AppState) (body : TasksBody)
    (h : truthy s.token = true) :
    (loadTasks (Fetch.resp 401 body) s).1 = (logout s).1 ∧
    (loadTasks (Fetch.resp 401 body) s).1.renderedList = s.renderedList := by
  unfold loadTasks logout
  simp [h, showAuth]

/-- Claim C4, witness: the 401 path at the concrete sample state. -/
theorem c4_load401_witness :
    (loadTasks (Fetch.resp 401 TasksBody.malformed) sampleState).1 =
      (logout sampleState).1 ∧
    (loadTasks (Fetch.resp 401 TasksBody.malformed) sampleState).1.renderedList =
      sampleState.renderedList :=
  c4_load401_is_logout sampleState TasksBody.malformed (by decide)

/-- Claim C5: on a 2xx login response carrying an `access_token` string,
the token is stored in memory and in storage and the controller switches
to the tasks panel, triggering a task-list load (the post-state is exactly
`showTasks` from the token-stored state, with the message area cleared);
on a non-2xx response only the failure message changes; on network failure
only the generic network-error message changes. -/
theorem c5_login_behaviour :
    (∀ (s : AppState) (tenv : Fetch TasksBody) (st : Nat) (t : String),
        200 ≤ st → st < 300 →
        login (Fetch.resp st (LoginBody.obj (some t))) tenv s =
          ((showTasks tenv
              { s with authMsg := "", token := JSVal.str t, storage := some t }).1,
           Request.loginReq s.usernameInput s.passwordInput ::
             (showTasks tenv
               { s with authMsg := "", token := JSVal.str t, storage := some t }).2)) ∧
    (∀ (s : AppState) (tenv : Fetch TasksBody) (st : Nat) (body : LoginBody),
        ¬(200 ≤ st ∧ st < 300) →
        login (Fetch.resp st body) tenv s =
          ({ s with authMsg := "Échec de la connexion." },
           [Request.loginReq s.usernameInput s.passwordInput])) ∧
    (∀ (s : AppState) (tenv : Fetch TasksBody),
        login Fetch.netError tenv s =
          ({ s with authMsg := "Erreur réseau." },
           [Request.loginReq s.usernameInput s.passwordInput])) := by
  refine ⟨?_, ?_, ?_⟩
  · intro s tenv st t h1 h2
    unfold login
    simp [h1, h2, jsToString]
  · intro s tenv st body h
    unfold login
    simp [h]
  · intro s tenv
    rfl

/-- Claim C5, witness: a concrete successful login from the sample state. -/
theorem c5_login_witness :
    login (Fetch.resp 200 (LoginBody.obj (some "tok1"))) Fetch.netError sampleState =
      ((showTasks Fetch.netError
          { sampleState with authMsg := "", token := JSVal.str "tok1",
                             storage := some "tok1" }).1,
       Request.loginReq "alice" "x" ::
         (showTasks Fetch.netError
           { sampleState with authMsg := "", token := JSVal.str "tok1",
                              storage := some "tok1" }).2) :=
  c5_login_behaviour.1 sampleState Fetch.netError 200 "tok1" (by decide) (by decide)

/-- Concrete task list used to instantiate the rendering theorem. -/
def sampleTasks : List Task :=
  [{ title := "Buy milk", completed := false },
   { title := "Walk dog", completed := true }]

/-- Claim C6: with a token present, any non-401 response whose body is a
JSON array is rendered as each task's title suffixed with the completion
marker exactly when `completed` is true, in order, fully replacing the
previous list; nothing else in the state changes. -/
theorem c6_render_array (s : AppState) (st : Nat) (ts : List Task)
    (h : truthy s.token = true) (h401 : st ≠ 401) :
    (loadTasks (Fetch.resp st (TasksBody.arr ts)) s).1 =
      { s with renderedList := ts.map renderTask } ∧
    ∀ t : Task, renderTask t =
      t.title ++ (if t.completed then " (Terminée)" else "") := by
  constructor
  · unfold loadTasks
    simp [h, h401]
  · intro t
    rfl

/-- Claim C6, witness: a concrete two-element array rendered from the
sample state, the completed task carrying the marker. -/
theorem c6_render_witness :
    (loadTasks (Fetch.resp 200 (TasksBody.arr sampleTasks)) sampleState).1 =
      { sampleState with renderedList := ["Buy milk", "Walk dog (Terminée)"] } := by
  have h := (c6_render_array sampleState 200 sampleTasks (by decide) (by decide)).1
  rw [h]
  decide

/-- Claim C9: with a token present and a non-empty title, AddTask on a 201
response clears the title input and re-invokes LoadTasks; on any other
status or a network failure it only appends to the console log, leaving
the title input, token, view, rendered list, and message area unchanged. -/
theorem c9_addTask_paths :
    (∀ (s : AppState) (tenv : Fetch TasksBody),
        truthy s.token = true → s.titleInput ≠ "" →
        addTask (Fetch.resp 201 ()) tenv s =
          ((loadTasks tenv { s with titleInput := "" }).1,
           Request.addReq (jsToString s.token) s.titleInput ::
             (loadTasks tenv { s with titleInput := "" }).2)) ∧
    (∀ (s : AppState) (tenv : Fetch TasksBody) (st : Nat),
        truthy s.token = true → s.titleInput ≠ "" → st ≠ 201 →
        addTask (Fetch.resp st ()) tenv s =
          ({ s with log := s.log ++ ["Erreur ajout tâche"] },
           [Request.addReq (jsToString s.token) s.titleInput])) ∧
    (∀ (s : AppState) (tenv : Fetch TasksBody),
        truthy s.token = true → s.titleInput ≠ "" →
        addTask Fetch.netError tenv s =
          ({ s with log := s.log ++ ["Erreur réseau ajout tâche:"] },
           [Request.addReq (jsToString s.token) s.titleInput])) := by
  refine ⟨?_, ?_, ?_⟩
  · intro s tenv ht hti
    unfold addTask
    simp [ht, hti]
  · intro s tenv st ht hti h201
    unfold addTask
    simp [ht, hti, h201]
  · intro s tenv ht hti
    unfold addTask
    simp [ht, hti]

/-- Claim C9, witness: a concrete 201 AddTask from the sample state. -/
theorem c9_addTask_witness :
    addTask (Fetch.resp 201 ()) Fetch.netError sampleState =
      ((loadTasks Fetch.netError { sampleState with titleInput := "" }).1,
       Request.addReq "tok1" "Walk dog" ::
         (loadTasks Fetch.netError { sampleState with titleInput := "" }).2) :=
  c9_addTask_paths.1 sampleState Fetch.netError (by decide) (by decide)

/-- Claim C10: a 2xx login response whose body lacks `access_token` sets
the in-memory token to `undefined` (falsy) yet persists the literal string
"undefined" and switches to the tasks panel; the triggered LoadTasks (and
any subsequent one) is a no-op, and at the next startup the stored
"undefined" counts as a present token, yielding the tasks panel. -/
theorem c10_missing_access_token :
    (∀ (s : AppState) (tenv : Fetch TasksBody) (st : Nat),
        200 ≤ st → st < 300 →
        login (Fetch.resp st (LoginBody.obj none)) tenv s =
          ({ s with authMsg := "", token := JSVal.undef,
                    storage := some "undefined", view := View.tasks },
           [Request.loginReq s.usernameInput s.passwordInput])) ∧
    (∀ (s : AppState) (env : Fetch TasksBody), truthy s.token = false →
        loadTasks env s = (s, [])) ∧
    truthy (tokenOf (some "undefined")) = true ∧
    (initSync (some "undefined")).view = View.tasks := by
  refine ⟨?_, ?_, by decide, by decide⟩
  · intro s tenv st h1 h2
    unfold login showTasks loadTasks
    simp [h1, h2, truthy, jsToString]
  · intro s env h
    unfold loadTasks
    simp [h]

/-- Claim C10, witness: the concrete token-less 200 login from the sample
state, and a no-op load from the resulting falsy-token state. -/
theorem c10_missing_access_token_witness :
    login (Fetch.resp 200 (LoginBody.obj none)) Fetch.netError sampleState =
      ({ sampleState with authMsg := "", token := JSVal.undef,
                          storage := some "undefined", view := View.tasks },
       [Request.loginReq "alice" "x"]) ∧
    loadTasks Fetch.netError
        { sampleState with token := JSVal.undef } =
      ({ sampleState with token := JSVal.undef }, []) :=
  ⟨c10_missing_access_token.1 sampleState Fetch.netError 200 (by decide) (by decide),
   c10_missing_access_token.2.1 _ Fetch.netError (by decide)⟩

end TaskApp
